import Mathlib

/-!
# ms-quic-benchmark: sender (client.c) and receiver (server.c)

A shallow embedding of the two endpoint programs.

* Machine integers are naturals or integers with explicit wrap-around:
  `uint64_t` values are taken modulo `2^64`, the `int` counter `PendingSends`
  is wrapped into the signed 32-bit range by `wrapInt32`.
* The MsQuic library is not part of the program.  The value returned by each
  library call is an input of the model, and the test `QUIC_FAILED` (declared
  in `msquic.h`, which is not part of the repository) is a parameter of every
  definition that branches on it.
* `printf` output is recorded as structured lines, API calls as a log.
-/

/-- The status code returned by MsQuic API calls (`QUIC_STATUS`). -/
abbrev QUIC_STATUS := Nat

/-- Two to the power 64, the modulus of `uint64_t` arithmetic. -/
def U64 : Nat := 2 ^ 64

/-- Wrap-around of a signed 32-bit `int`, the type of `PendingSends`. -/
def wrapInt32 (x : Int) : Int := (x + 2 ^ 31) % 2 ^ 32 - 2 ^ 31

/-- The test `QUIC_FAILED` as declared by the POSIX header of MsQuic:
`((int)(X) > 0)`.  Used only to evaluate the model on concrete runs. -/
def posixFailed (X : QUIC_STATUS) : Bool := decide (0 < wrapInt32 (X : Int))

namespace Server

/-- The constant `GB` of server.c line 25: `1024 * 1024 * 1024`. -/
def GB : Nat := 1024 * 1024 * 1024

/-- A buffer descriptor (`QUIC_BUFFER`); only its `uint32_t Length` is read. -/
structure QUIC_BUFFER where
  Length : Nat

/-- The stream events distinguished by `ServerStreamCallback`.  A `RECEIVE`
event carries `BufferCount`, the descriptor array `Buffers` (indexed from 0)
and `TotalBufferLength`; `OTHER` stands for every event type that reaches the
`default` label. -/
inductive QUIC_STREAM_EVENT where
  | RECEIVE (BufferCount : Nat) (Buffers : Nat → QUIC_BUFFER) (TotalBufferLength : Nat)
  | PEER_SEND_SHUTDOWN
  | SHUTDOWN_COMPLETE
  | OTHER

/-- Lines written to standard output by the receiver. -/
inductive Output where
  /-- The line `Received k GB of data` (server.c line 52). -/
  | ReceivedGB (k : Nat)
  /-- The line `Client closed send, received x MB of data` (line 58); the
  argument is the byte total that is formatted. -/
  | ClientClosedSend (bytes : Nat)
  /-- A failure line `<what> failed, 0x<status>`. -/
  | Failed (what : String) (status : QUIC_STATUS)
  /-- The start-up banner of line 219. -/
  | Started
  /-- The line `Shutting down server...` (line 29). -/
  | ShuttingDown
  deriving DecidableEq, Repr

/-- MsQuic API calls made by the receiver, in the order they are made. -/
inductive Api where
  | MsQuicOpen2
  | RegistrationOpen
  | ConfigurationOpen
  | ConfigurationLoadCredential
  | ListenerOpen
  | ListenerStart
  | StreamShutdownGraceful
  | StreamClose
  | ListenerClose
  | ConfigurationClose
  | RegistrationClose
  | MsQuicClose
  deriving DecidableEq, Repr

/-- Program points of the receiver's `main` (server.c lines 148-240). -/
inductive PC where
  | open2        -- line 155
  | regOpen      -- line 162
  | confOpen     -- line 192
  | loadCred     -- line 197
  | listenerOpen -- line 203
  | listenerStart -- line 214
  | waitLoop     -- line 222
  | clListener   -- line 227
  | clConf       -- line 230
  | clReg        -- line 233
  | clClose      -- line 237
  | exited (code : Int)
  deriving DecidableEq, Repr

/-- The receiver's globals, the program point of `main`, and the two logs. -/
structure State where
  pc : PC
  Running : Int
  TotalBytesReceived : Nat
  Registration : Bool
  Configuration : Bool
  Listener : Bool
  stdout : List Output
  apiLog : List Api

/-- The globals as initialised at server.c lines 9-25, at the first statement
of `main` that calls the library. -/
def init : State :=
  { pc := .open2, Running := 1, TotalBytesReceived := 0,
    Registration := false, Configuration := false, Listener := false,
    stdout := [], apiLog := [] }

/-- The `for` loop of server.c lines 46-48: `i` runs from `0` to
`BufferCount - 1` and each `Buffers[i].Length` is added to the 64-bit total. -/
def receiveLoop (BufferCount : Nat) (Buffers : Nat → QUIC_BUFFER) (total : Nat) : Nat :=
  (List.range BufferCount).foldl (fun t i => (t + (Buffers i).Length) % U64) total

/-- Subtraction of `uint64_t` values. -/
def sub64 (a b : Nat) : Nat := (a + U64 - b % U64) % U64

/-- The stream callback `ServerStreamCallback` (server.c lines 38-75). -/
def ServerStreamCallback (s : State) (Event : QUIC_STREAM_EVENT) : State :=
  match Event with
  | .RECEIVE BufferCount Buffers TotalBufferLength =>
    let total := receiveLoop BufferCount Buffers s.TotalBytesReceived
    let s1 := { s with TotalBytesReceived := total }
    if total / GB > sub64 total TotalBufferLength / GB then
      { s1 with stdout := s1.stdout ++ [.ReceivedGB (total / GB)] }
    else s1
  | .PEER_SEND_SHUTDOWN =>
    { s with stdout := s.stdout ++ [.ClientClosedSend s.TotalBytesReceived],
             apiLog := s.apiLog ++ [.StreamShutdownGraceful] }
  | .SHUTDOWN_COMPLETE =>
    { s with apiLog := s.apiLog ++ [.StreamClose] }
  | .OTHER => s

/-- The stream callback applied to a sequence of events, in order. -/
def handleAll (s : State) (events : List QUIC_STREAM_EVENT) : State :=
  events.foldl ServerStreamCallback s

/-- The value of `TotalBufferLength` carried by an event (0 for events that are
not `RECEIVE`). -/
def eventBytes : QUIC_STREAM_EVENT → Nat
  | .RECEIVE _ _ TotalBufferLength => TotalBufferLength
  | _ => 0

/-- The sum of the descriptor lengths of a `RECEIVE` event; `none` for other
events. -/
def descriptorSum : QUIC_STREAM_EVENT → Option Nat
  | .RECEIVE BufferCount Buffers _ =>
    some (∑ i ∈ Finset.range BufferCount, (Buffers i).Length)
  | _ => none

/-- The handler `SignalHandler` of server.c lines 28-31. -/
def SignalHandler (s : State) : State :=
  { s with stdout := s.stdout ++ [.ShuttingDown], Running := 0 }

/-- One statement of the receiver's `main`.  `ret` is the value returned by the
library call made by the statement, if it makes one. -/
def mainStep (QUIC_FAILED : QUIC_STATUS → Bool) (s : State) (ret : QUIC_STATUS) : State :=
  match s.pc with
  | .open2 =>
    let s : State := { s with apiLog := s.apiLog ++ [.MsQuicOpen2] }
    if QUIC_FAILED ret then
      { s with stdout := s.stdout ++ [.Failed "MsQuicOpen2" ret], pc := .exited 1 }
    else { s with pc := .regOpen }
  | .regOpen =>
    let s : State := { s with apiLog := s.apiLog ++ [.RegistrationOpen] }
    if QUIC_FAILED ret then
      { s with stdout := s.stdout ++ [.Failed "RegistrationOpen" ret], pc := .clListener }
    else { s with Registration := true, pc := .confOpen }
  | .confOpen =>
    let s : State := { s with apiLog := s.apiLog ++ [.ConfigurationOpen] }
    if QUIC_FAILED ret then
      { s with stdout := s.stdout ++ [.Failed "ConfigurationOpen" ret], pc := .clListener }
    else { s with Configuration := true, pc := .loadCred }
  | .loadCred =>
    let s : State := { s with apiLog := s.apiLog ++ [.ConfigurationLoadCredential] }
    if QUIC_FAILED ret then
      { s with stdout := s.stdout ++ [.Failed "ConfigurationLoadCredential" ret],
               pc := .clListener }
    else { s with pc := .listenerOpen }
  | .listenerOpen =>
    let s : State := { s with apiLog := s.apiLog ++ [.ListenerOpen] }
    if QUIC_FAILED ret then
      { s with stdout := s.stdout ++ [.Failed "ListenerOpen" ret], pc := .clListener }
    else { s with Listener := true, pc := .listenerStart }
  | .listenerStart =>
    let s : State := { s with apiLog := s.apiLog ++ [.ListenerStart] }
    if QUIC_FAILED ret then
      { s with stdout := s.stdout ++ [.Failed "ListenerStart" ret], pc := .clListener }
    else { s with stdout := s.stdout ++ [.Started], pc := .waitLoop }
  | .waitLoop =>
    -- while (Running) usleep(100000);
    if s.Running ≠ 0 then s else { s with pc := .clListener }
  | .clListener =>
    if s.Listener then { s with apiLog := s.apiLog ++ [.ListenerClose], pc := .clConf }
    else { s with pc := .clConf }
  | .clConf =>
    if s.Configuration then
      { s with apiLog := s.apiLog ++ [.ConfigurationClose], pc := .clReg }
    else { s with pc := .clReg }
  | .clReg =>
    if s.Registration then
      { s with apiLog := s.apiLog ++ [.RegistrationClose], pc := .clClose }
    else { s with pc := .clClose }
  | .clClose => { s with apiLog := s.apiLog ++ [.MsQuicClose], pc := .exited 0 }
  | .exited _ => s

/-- The receiver's `main` run statement by statement, one library return value
per statement, with no signal arriving in between. -/
def runMain (QUIC_FAILED : QUIC_STATUS → Bool) (s : State) (rets : List QUIC_STATUS) : State :=
  rets.foldl (mainStep QUIC_FAILED) s

/-- What holds of the milestone lines after any sequence of receive events
none of which carries more than `GB` bytes: the line for `k` has been written
once if `1 ≤ k ≤ TotalBytesReceived / GB`, and not at all otherwise. -/
def milestoneInv (s : State) : Prop :=
  ∀ k, s.stdout.count (.ReceivedGB k)
    = if 1 ≤ k ∧ k ≤ s.TotalBytesReceived / GB then 1 else 0

/-- A receive event with one descriptor of `2^31` bytes (2 GiB). -/
def twoGiBEvent : QUIC_STREAM_EVENT :=
  .RECEIVE 1 (fun _ => { Length := 2 ^ 31 }) (2 ^ 31)

/-- Two receive events: two descriptors of 512 MiB each, then one descriptor
of 1 GiB. -/
def twoEvents : List QUIC_STREAM_EVENT :=
  [.RECEIVE 2 (fun _ => { Length := 2 ^ 29 }) (2 ^ 30),
   .RECEIVE 1 (fun _ => { Length := 2 ^ 30 }) (2 ^ 30)]

/-- A run of the receiver's `main` in which `MsQuicOpen2` succeeds and
`RegistrationOpen` returns the failure status 1. -/
def regOpenFailsRets : List QUIC_STATUS := [0, 1, 0, 0, 0, 0]

end Server

namespace Client

/-- The constant `MAX_PENDING_SENDS` of client.c line 33. -/
def MAX_PENDING_SENDS : Int := 128 * 1024

/-- MsQuic API calls made by the sender, by `main` or by a callback, in the
order they are made. -/
inductive Api where
  | MsQuicOpen2
  | RegistrationOpen
  | ConfigurationOpen
  | ConfigurationLoadCredential
  | ConnectionOpen
  | ConnectionStart
  | StreamOpen
  | StreamStart
  | StreamSend
  | StreamShutdownGraceful
  | StreamClose
  | ConnectionClose
  | ConfigurationClose
  | RegistrationClose
  | MsQuicClose
  deriving DecidableEq, Repr

/-- What the main thread does, in program order: the two volatile reads of the
loop condition `Running && !TestTimeExpired` (line 276), the calls of lines
279 and 281, the two reads of the test `Stream != NULL && TestTimeExpired` of
line 287 (`testStream` tells whether `Stream` was read as not `NULL`), and the
computation of the report (lines 293-300). -/
inductive MainEv where
  | readRunning (v : Int)
  | readExpired (v : Int)
  | SendData
  | usleep
  | testStream (nonNull : Bool)
  | testExpired (v : Int)
  | report
  deriving DecidableEq, Repr

/-- Lines written to standard output by the sender. -/
inductive Output where
  /-- The line `<what> failed, 0x<status>!`. -/
  | Failed (what : String) (status : QUIC_STATUS)
  /-- The line `Memory allocation failed!` (line 122). -/
  | AllocFailed
  /-- The line `Test interrupted...` (line 38). -/
  | Interrupted
  /-- The line `Test time expired` (line 44). -/
  | Expired
  /-- The two lines printed on the connected event (lines 164-165). -/
  | Connected
  /-- The line `Connecting to ...` (line 267). -/
  | Connecting
  /-- A line of a stream or connection callback that only reports the event. -/
  | Note (what : String)
  /-- The report of lines 297-300.  `bytes` is `TotalBytesSent`, and
  `elapsedNs` is `EndTime - StartTime` in nanoseconds, the quantity that the
  program converts to seconds in floating point. -/
  | Report (bytes : Nat) (elapsedNs : Int)
  deriving DecidableEq, Repr

/-- Program points of the sender's `main` and of `SendData` called from it. -/
inductive PC where
  | open2        -- line 224
  | regOpen      -- line 231
  | confOpen     -- line 251
  | loadCred     -- line 256
  | connOpen     -- line 262
  | connStart    -- line 270
  | loopRunning  -- line 276, read of Running
  | loopExpired  -- line 276, read of TestTimeExpired
  | bodyStream   -- line 277
  | bodyPending  -- line 278
  | bodyUsleep   -- line 281
  | sdMalloc     -- line 120
  | sdSend       -- line 133
  | sdAdd        -- line 146
  | sdBytes      -- line 147
  | postStream   -- line 287, read of Stream
  | postExpired  -- line 287, read of TestTimeExpired
  | postShutdown -- line 288
  | postNull     -- line 289
  | report       -- lines 293-300
  | clConn       -- line 303
  | clConf       -- line 306
  | clReg        -- line 309
  | clClose      -- line 313
  | exited (code : Int)
  deriving DecidableEq, Repr

/-- Where the connection is in its life, as far as the library is concerned:
not started, started by `ConnectionStart`, connected, or shut down
completely. -/
inductive ConnPhase where
  | idle
  | started
  | connected
  | closed
  deriving DecidableEq, Repr

/-- Where the worker thread is inside the connected branch of
`ClientConnectionCallback`: not in it, before `StreamStart` (line 180), or
before `clock_gettime` (line 191). -/
inductive CbPC where
  | idle
  | streamStart
  | timer
  deriving DecidableEq, Repr

/-- The sender's globals (client.c lines 11-34), the program points of the main
thread and of the connected callback, the logs, and the state of the
environment: `inFlight` counts the sends accepted by `StreamSend` whose
completion event has not been delivered, `alarmArmed` tells whether `alarm` is
pending, `conn` and `streamLive` tell which events the library may still
deliver, `startWrites` and `endWrites` count the writes of `StartTime` and
`EndTime`. -/
structure State where
  pc : PC
  cb : CbPC
  Running : Int
  TestTimeExpired : Int
  PendingSends : Int
  TotalBytesSent : Nat
  BufferSize : Nat
  TestDuration : Nat
  StartTime : Int
  EndTime : Int
  Registration : Bool
  Configuration : Bool
  Connection : Bool
  Stream : Bool
  inFlight : Nat
  alarmArmed : Bool
  conn : ConnPhase
  streamLive : Bool
  startWrites : Nat
  endWrites : Nat
  mainLog : List MainEv
  apiLog : List Api
  stdout : List Output

/-- The globals as initialised at client.c lines 11-34, after
`ParseCommandLine` has set `BufferSize` and `TestDuration`, at the first
statement of `main` that calls the library. -/
def init (BufferSize TestDuration : Nat) : State :=
  { pc := .open2, cb := .idle, Running := 1, TestTimeExpired := 0, PendingSends := 0,
    TotalBytesSent := 0, BufferSize := BufferSize, TestDuration := TestDuration,
    StartTime := 0, EndTime := 0,
    Registration := false, Configuration := false, Connection := false, Stream := false,
    inFlight := 0, alarmArmed := false, conn := .idle, streamLive := false,
    startWrites := 0, endWrites := 0, mainLog := [], apiLog := [], stdout := [] }

/-- The handler `SignalHandler` (client.c lines 37-40). -/
def SignalHandler (s : State) : State :=
  { s with stdout := s.stdout ++ [.Interrupted], Running := 0 }

/-- The handler `TimerHandler` (client.c lines 43-49); `now` is the value that
`clock_gettime` stores. -/
def TimerHandler (s : State) (now : Int) : State :=
  { s with stdout := s.stdout ++ [.Expired], TestTimeExpired := 1,
           EndTime := now, endWrites := s.endWrites + 1 }

/-- The stream events distinguished by `ClientStreamCallback`. -/
inductive QUIC_STREAM_EVENT where
  | SEND_COMPLETE
  | RECEIVE
  | PEER_SEND_SHUTDOWN
  | SHUTDOWN_COMPLETE (AppCloseInProgress : Bool)
  | OTHER
  deriving DecidableEq, Repr

/-- The connection events distinguished by `ClientConnectionCallback`. -/
inductive QUIC_CONNECTION_EVENT where
  | CONNECTED
  | SHUTDOWN_COMPLETE (AppCloseInProgress : Bool)
  | OTHER
  deriving DecidableEq, Repr

/-- The stream callback `ClientStreamCallback` (client.c lines 80-111). -/
def ClientStreamCallback (s : State) (Event : QUIC_STREAM_EVENT) : State :=
  match Event with
  | .SEND_COMPLETE =>
    { s with PendingSends := wrapInt32 (s.PendingSends - 1), inFlight := s.inFlight - 1 }
  | .RECEIVE => { s with stdout := s.stdout ++ [.Note "Data received"] }
  | .PEER_SEND_SHUTDOWN => { s with stdout := s.stdout ++ [.Note "Peer closed send"] }
  | .SHUTDOWN_COMPLETE AppCloseInProgress =>
    let s1 : State :=
      { s with stdout := s.stdout ++ [.Note "Stream closed complete"], streamLive := false }
    if !AppCloseInProgress then { s1 with apiLog := s1.apiLog ++ [.StreamClose] } else s1
  | .OTHER => s

/-- The function `SendData` (client.c lines 114-148) run without interruption.
`SendBufferRaw` is the pointer returned by `malloc` (0 for `NULL`) and `Status`
the value returned by `StreamSend`, which is called only when the allocation
succeeded. -/
def SendData (QUIC_FAILED : QUIC_STATUS → Bool) (s : State) (SendBufferRaw : Nat)
    (Status : QUIC_STATUS) : State :=
  if SendBufferRaw = 0 then
    { s with stdout := s.stdout ++ [.AllocFailed] }
  else
    let s1 : State := { s with apiLog := s.apiLog ++ [.StreamSend] }
    if QUIC_FAILED Status then
      { s1 with stdout := s1.stdout ++ [.Failed "StreamSend" Status] }
    else
      { s1 with inFlight := s1.inFlight + 1,
                PendingSends := wrapInt32 (s1.PendingSends + 1),
                TotalBytesSent := (s1.TotalBytesSent + s1.BufferSize) % U64 }

/-- A sequence of `SendData` calls, each with the values returned to it by
`malloc` and `StreamSend`. -/
def sendAll (QUIC_FAILED : QUIC_STATUS → Bool) (s : State) (calls : List (Nat × QUIC_STATUS)) :
    State :=
  calls.foldl (fun st c => SendData QUIC_FAILED st c.1 c.2) s

/-- Whether `StreamSend` was called and succeeded in a `SendData` call. -/
def sendSucceeded (QUIC_FAILED : QUIC_STATUS → Bool) (c : Nat × QUIC_STATUS) : Bool :=
  c.1 != 0 && !QUIC_FAILED c.2

/-- The connection callback `ClientConnectionCallback` (client.c lines
155-209) run without interruption.  `StreamOpenRet` and `StreamStartRet` are
the values returned by the two library calls of the connected branch, `now`
the value stored by `clock_gettime`.  The result is the new state and the
status returned to the library (0 for `QUIC_STATUS_SUCCESS`). -/
def ClientConnectionCallback (QUIC_FAILED : QUIC_STATUS → Bool) (s : State)
    (Event : QUIC_CONNECTION_EVENT) (StreamOpenRet StreamStartRet : QUIC_STATUS) (now : Int) :
    State × QUIC_STATUS :=
  match Event with
  | .CONNECTED =>
    let s1 : State :=
      { s with stdout := s.stdout ++ [.Connected], apiLog := s.apiLog ++ [.StreamOpen] }
    if QUIC_FAILED StreamOpenRet then
      ({ s1 with stdout := s1.stdout ++ [.Failed "StreamOpen" StreamOpenRet], Running := 0 },
        StreamOpenRet)
    else
      let s2 : State :=
        { s1 with Stream := true, streamLive := true, apiLog := s1.apiLog ++ [.StreamStart] }
      if QUIC_FAILED StreamStartRet then
        ({ s2 with stdout := s2.stdout ++ [.Failed "StreamStart" StreamStartRet], Running := 0 },
          StreamStartRet)
      else
        ({ s2 with StartTime := now, startWrites := s2.startWrites + 1,
                   alarmArmed := decide (s2.TestDuration ≠ 0) }, 0)
  | .SHUTDOWN_COMPLETE AppCloseInProgress =>
    let s1 : State := { s with stdout := s.stdout ++ [.Note "Connection closed complete"] }
    let s2 : State :=
      if !AppCloseInProgress then { s1 with apiLog := s1.apiLog ++ [.ConnectionClose] } else s1
    ({ s2 with Running := 0 }, 0)
  | .OTHER => (s, 0)

/-- The first statements of the connected branch (client.c lines 164-178): the
two lines of output and `StreamOpen`, which stores the handle in the global
`Stream` when it succeeds. -/
def connectedOpen (QUIC_FAILED : QUIC_STATUS → Bool) (s : State) (StreamOpenRet : QUIC_STATUS) :
    State :=
  let s1 : State :=
    { s with stdout := s.stdout ++ [.Connected], apiLog := s.apiLog ++ [.StreamOpen] }
  if QUIC_FAILED StreamOpenRet then
    { s1 with stdout := s1.stdout ++ [.Failed "StreamOpen" StreamOpenRet], Running := 0 }
  else { s1 with Stream := true, streamLive := true, cb := .streamStart }

/-- The call of `StreamStart` in the connected branch (client.c lines
180-188). -/
def connectedStart (QUIC_FAILED : QUIC_STATUS → Bool) (s : State) (StreamStartRet : QUIC_STATUS) :
    State :=
  let s2 : State := { s with apiLog := s.apiLog ++ [.StreamStart] }
  if QUIC_FAILED StreamStartRet then
    { s2 with stdout := s2.stdout ++ [.Failed "StreamStart" StreamStartRet], Running := 0,
              cb := .idle }
  else { s2 with cb := .timer }

/-- The end of the connected branch (client.c lines 190-196): the start time
is recorded and the alarm is set; `alarm(0)` sets none. -/
def connectedTimer (s : State) (now : Int) : State :=
  { s with StartTime := now, startWrites := s.startWrites + 1,
           alarmArmed := decide (s.TestDuration ≠ 0), cb := .idle }

/-- The value that the main thread gets when it reads the global `Stream`.
The global is a plain variable, neither `volatile` nor atomic, and it is
written by the callback thread: a read that is `stale` does not see that write
and yields `NULL`, as when the compiler keeps the variable in a register. -/
def readStream (s : State) (stale : Bool) : Bool := s.Stream && !stale

/-- One statement of the main thread.  `ret` is the value returned by the
call out of the program made by the statement, if it makes one: a
`QUIC_STATUS`, or the pointer returned by `malloc` (0 for `NULL`); `stale`
tells how the statement reads `Stream`, if it reads it (see `readStream`). -/
def mainStep (QUIC_FAILED : QUIC_STATUS → Bool) (s : State) (ret : Nat) (stale : Bool) : State :=
  match s.pc with
  | .open2 =>
    let s : State := { s with apiLog := s.apiLog ++ [.MsQuicOpen2] }
    if QUIC_FAILED ret then
      { s with stdout := s.stdout ++ [.Failed "MsQuicOpen2" ret], pc := .exited 1 }
    else { s with pc := .regOpen }
  | .regOpen =>
    let s : State := { s with apiLog := s.apiLog ++ [.RegistrationOpen] }
    if QUIC_FAILED ret then
      { s with stdout := s.stdout ++ [.Failed "RegistrationOpen" ret], pc := .clConn }
    else { s with Registration := true, pc := .confOpen }
  | .confOpen =>
    let s : State := { s with apiLog := s.apiLog ++ [.ConfigurationOpen] }
    if QUIC_FAILED ret then
      { s with stdout := s.stdout ++ [.Failed "ConfigurationOpen" ret], pc := .clConn }
    else { s with Configuration := true, pc := .loadCred }
  | .loadCred =>
    let s : State := { s with apiLog := s.apiLog ++ [.ConfigurationLoadCredential] }
    if QUIC_FAILED ret then
      { s with stdout := s.stdout ++ [.Failed "ConfigurationLoadCredential" ret], pc := .clConn }
    else { s with pc := .connOpen }
  | .connOpen =>
    let s : State := { s with apiLog := s.apiLog ++ [.ConnectionOpen] }
    if QUIC_FAILED ret then
      { s with stdout := s.stdout ++ [.Failed "ConnectionOpen" ret], pc := .clConn }
    else { s with Connection := true, stdout := s.stdout ++ [.Connecting], pc := .connStart }
  | .connStart =>
    let s : State := { s with apiLog := s.apiLog ++ [.ConnectionStart] }
    if QUIC_FAILED ret then
      { s with stdout := s.stdout ++ [.Failed "ConnectionStart" ret], pc := .clConn }
    else { s with conn := .started, pc := .loopRunning }
  | .loopRunning =>
    let s : State := { s with mainLog := s.mainLog ++ [.readRunning s.Running] }
    if s.Running ≠ 0 then { s with pc := .loopExpired } else { s with pc := .postStream }
  | .loopExpired =>
    let s : State := { s with mainLog := s.mainLog ++ [.readExpired s.TestTimeExpired] }
    if s.TestTimeExpired = 0 then { s with pc := .bodyStream } else { s with pc := .postStream }
  | .bodyStream =>
    if readStream s stale then { s with pc := .bodyPending } else { s with pc := .loopRunning }
  | .bodyPending =>
    if s.PendingSends < MAX_PENDING_SENDS then
      { s with mainLog := s.mainLog ++ [.SendData], pc := .sdMalloc }
    else { s with pc := .bodyUsleep }
  | .bodyUsleep => { s with mainLog := s.mainLog ++ [.usleep], pc := .loopRunning }
  | .sdMalloc =>
    if ret = 0 then { s with stdout := s.stdout ++ [.AllocFailed], pc := .loopRunning }
    else { s with pc := .sdSend }
  | .sdSend =>
    let s : State := { s with apiLog := s.apiLog ++ [.StreamSend] }
    if QUIC_FAILED ret then
      { s with stdout := s.stdout ++ [.Failed "StreamSend" ret], pc := .loopRunning }
    else { s with inFlight := s.inFlight + 1, pc := .sdAdd }
  | .sdAdd => { s with PendingSends := wrapInt32 (s.PendingSends + 1), pc := .sdBytes }
  | .sdBytes =>
    { s with TotalBytesSent := (s.TotalBytesSent + s.BufferSize) % U64, pc := .loopRunning }
  | .postStream =>
    if readStream s stale then
      { s with mainLog := s.mainLog ++ [.testStream true], pc := .postExpired }
    else { s with mainLog := s.mainLog ++ [.testStream false], pc := .report }
  | .postExpired =>
    let s : State := { s with mainLog := s.mainLog ++ [.testExpired s.TestTimeExpired] }
    if s.TestTimeExpired ≠ 0 then { s with pc := .postShutdown } else { s with pc := .report }
  | .postShutdown =>
    { s with apiLog := s.apiLog ++ [.StreamShutdownGraceful], pc := .postNull }
  | .postNull => { s with Stream := false, pc := .report }
  | .report =>
    { s with mainLog := s.mainLog ++ [.report],
             stdout := s.stdout ++ [.Report s.TotalBytesSent (s.EndTime - s.StartTime)],
             pc := .clConn }
  | .clConn =>
    if s.Connection then { s with apiLog := s.apiLog ++ [.ConnectionClose], pc := .clConf }
    else { s with pc := .clConf }
  | .clConf =>
    if s.Configuration then
      { s with apiLog := s.apiLog ++ [.ConfigurationClose], pc := .clReg }
    else { s with pc := .clReg }
  | .clReg =>
    if s.Registration then
      { s with apiLog := s.apiLog ++ [.RegistrationClose], pc := .clClose }
    else { s with pc := .clClose }
  | .clClose => { s with apiLog := s.apiLog ++ [.MsQuicClose], pc := .exited 0 }
  | .exited _ => s

/-- What can happen next in the sender process: the main thread executes its
next statement, a signal is delivered, the library invokes a callback on a
worker thread (for the connected event the callback runs up to the return of
`StreamOpen`), or the worker thread executes the next statement of the
connected branch it is in. -/
inductive Action where
  | main (ret : Nat) (stale : Bool)
  | SIGINT
  | SIGALRM (now : Int)
  | stream (Event : QUIC_STREAM_EVENT)
  | connection (Event : QUIC_CONNECTION_EVENT) (StreamOpenRet : QUIC_STATUS)
  | worker (ret : QUIC_STATUS) (now : Int)
  deriving DecidableEq, Repr

/-- Whether `main` has returned. -/
def hasExited : PC → Bool
  | .exited _ => true
  | _ => false

/-- Whether the environment may deliver a connection event: `CONNECTED` once
after `ConnectionStart` succeeded, `SHUTDOWN_COMPLETE` once after that call and
nothing after it.  Events are not held back while the connected branch is
still running, which admits more runs than the library produces. -/
def connEnabled (s : State) : QUIC_CONNECTION_EVENT → Bool
  | .CONNECTED => s.conn == .started
  | .SHUTDOWN_COMPLETE _ => s.conn == .started || s.conn == .connected
  | .OTHER => s.conn == .started || s.conn == .connected

/-- Whether the environment may deliver a stream event: only for an open
stream, and a send completion only for a send that was accepted by
`StreamSend` and has not completed yet. -/
def streamEnabled (s : State) : QUIC_STREAM_EVENT → Bool
  | .SEND_COMPLETE => s.streamLive && decide (0 < s.inFlight)
  | _ => s.streamLive

/-- One step of the sender process; `none` when the action cannot happen in
the state.  Nothing happens after `main` has returned, and the alarm signal is
delivered only while an alarm is pending.  The main thread, `SendData` and the
connected branch of the connection callback run statement by statement, so
that the other thread can come in between; signal handlers and the other
callback branches, which make at most one library call, run as one step. -/
def step (QUIC_FAILED : QUIC_STATUS → Bool) (s : State) (a : Action) : Option State :=
  if hasExited s.pc then none
  else
    match a with
    | .main ret stale => some (mainStep QUIC_FAILED s ret stale)
    | .SIGINT => some (SignalHandler s)
    | .SIGALRM now =>
      if s.alarmArmed then some (TimerHandler { s with alarmArmed := false } now) else none
    | .stream Event =>
      if streamEnabled s Event then some (ClientStreamCallback s Event) else none
    | .connection Event StreamOpenRet =>
      if connEnabled s Event then
        match Event with
        | .CONNECTED =>
          some { connectedOpen QUIC_FAILED s StreamOpenRet with conn := .connected }
        | .SHUTDOWN_COMPLETE AppCloseInProgress =>
          some { (ClientConnectionCallback QUIC_FAILED s
                    (.SHUTDOWN_COMPLETE AppCloseInProgress) 0 0 0).1 with conn := .closed }
        | .OTHER => some (ClientConnectionCallback QUIC_FAILED s .OTHER 0 0 0).1
      else none
    | .worker ret now =>
      match s.cb with
      | .idle => none
      | .streamStart => some (connectedStart QUIC_FAILED s ret)
      | .timer => some (connectedTimer s now)

/-- A run of the sender process: the actions happen one after the other. -/
def run (QUIC_FAILED : QUIC_STATUS → Bool) (s : State) : List Action → Option State
  | [] => some s
  | a :: rest =>
    match step QUIC_FAILED s a with
    | some s1 => run QUIC_FAILED s1 rest
    | none => none

/-- What relates the counter `PendingSends` to the number of sends in flight:
they are equal except between a successful `StreamSend` and the increment of
line 146, where the counter is one behind; and the number in flight never
exceeds the limit, because a send is started only after the counter was read
below it. -/
def inFlightInv (s : State) : Prop :=
  (s.inFlight : Int) ≤ MAX_PENDING_SENDS ∧
  ((s.pc = .sdMalloc ∨ s.pc = .sdSend) → (s.inFlight : Int) < MAX_PENDING_SENDS) ∧
  s.PendingSends = (s.inFlight : Int) - (if s.pc = .sdAdd then 1 else 0)

/-- A statement of the main thread whose call, if it makes one, returns 0, and
whose read of `Stream`, if it makes one, sees the current value. -/
def ok : Action := .main 0 false

/-- The start of a run in which every initialisation call of `main` succeeds
and the connected event is delivered: `StreamOpen` and `StreamStart` succeed
and the start time is recorded at monotonic time 5 s (in nanoseconds). -/
def startup : List Action :=
  [ok, ok, ok, ok, ok, ok, .connection .CONNECTED 0, .worker 0 0, .worker 0 5000000000]

/-- One iteration of the producer loop in which `malloc` and `StreamSend`
succeed: the two reads of the loop condition, the two tests of the body, and
the four statements of `SendData`. -/
def iterationOk : List Action :=
  [ok, ok, ok, ok, .main 1 false, ok, ok, ok]

/-- One iteration of the producer loop in which `StreamSend` returns the
failure status 1. -/
def iterationSendFails : List Action :=
  [ok, ok, ok, ok, .main 1 false, .main 1 false]

/-- A run that is interrupted before the deadline: one send is submitted,
`SIGINT` is delivered, the loop condition reads `Running` as zero, and the
main thread proceeds up to the computation of the report. -/
def interruptRun : List Action :=
  startup ++ iterationOk ++ [.SIGINT] ++ [ok, ok, ok]

/-- The statements of `main` from the report to the return, after the
loop and the test of line 287. -/
def reportAndCleanup : List Action :=
  [ok, ok, ok, ok, ok]

/-- A run in which the connection is shut down by the peer or the transport
during the test: the library completes the outstanding send, delivers the
shutdown-complete events of the stream and of the connection with
`AppCloseInProgress` false, the loop ends on `Running`, and `main` runs to its
return. -/
def peerCloseRun : List Action :=
  startup ++ iterationOk ++
    [.stream .SEND_COMPLETE, .stream (.SHUTDOWN_COMPLETE false),
     .connection (.SHUTDOWN_COMPLETE false) 0] ++
    [ok, ok, ok] ++ reportAndCleanup

/-- A run in which `StreamSend` fails in three iterations of the loop in a row
and succeeds in the next one. -/
def sendFailRun : List Action :=
  startup ++ iterationSendFails ++ iterationSendFails ++ iterationSendFails ++ iterationOk

/-- A run in which `MsQuicOpen2` succeeds and `RegistrationOpen` returns the
failure status 1; `main` then runs to its return. -/
def regOpenFailsRun : List Action :=
  [ok, .main 1 false, ok, ok, ok, ok]

/-- A run in which the initialisation succeeds up to `ConnectionStart`, which
returns the failure status 1; `main` then runs to its return. -/
def connStartFailsRun : List Action :=
  [ok, ok, ok, ok, ok, .main 1 false, ok, ok, ok, ok]

/-- A run that ends on the deadline with no send submitted, in which the read
of `Stream` by the test of line 287 is stale. -/
def staleDeadlineRun : List Action :=
  startup ++ [.SIGALRM 15000000000] ++ [ok, ok, .main 0 true]

/-- The state at the head of the producer loop after the start-up and one
iteration that submitted a send, which is still in flight. -/
def afterOneSend : State :=
  (run posixFailed (init 1200 10) (startup ++ iterationOk)).getD (init 1200 10)

end Client
namespace Server

theorem receiveLoop_eq (n : Nat) (B : Nat → QUIC_BUFFER) (t : Nat) (ht : t < U64) :
    receiveLoop n B t = (t + ∑ i ∈ Finset.range n, (B i).Length) % U64 := by
  unfold receiveLoop
  induction n with
  | zero => simp [Nat.mod_eq_of_lt ht]
  | succ k ih =>
    rw [List.range_succ, List.foldl_append, ih, Finset.sum_range_succ]
    simp only [List.foldl_cons, List.foldl_nil]
    rw [Nat.mod_add_mod, Nat.add_assoc]

/-- C4: a `RECEIVE` event adds the sum of the lengths of its `BufferCount`
descriptors to `TotalBytesReceived` in 64-bit unsigned arithmetic, and an event
of any other type leaves `TotalBytesReceived` unchanged. -/
theorem receive_accounting (s : State) (ht : s.TotalBytesReceived < U64) :
    (∀ (BufferCount : Nat) (Buffers : Nat → QUIC_BUFFER) (TotalBufferLength : Nat),
      (ServerStreamCallback s (.RECEIVE BufferCount Buffers TotalBufferLength)).TotalBytesReceived
        = (s.TotalBytesReceived + ∑ i ∈ Finset.range BufferCount, (Buffers i).Length) % U64) ∧
    (ServerStreamCallback s .PEER_SEND_SHUTDOWN).TotalBytesReceived = s.TotalBytesReceived ∧
    (ServerStreamCallback s .SHUTDOWN_COMPLETE).TotalBytesReceived = s.TotalBytesReceived ∧
    (ServerStreamCallback s .OTHER).TotalBytesReceived = s.TotalBytesReceived := by
  refine ⟨?_, rfl, rfl, rfl⟩
  intro n B L
  simp only [ServerStreamCallback]
  split <;> exact receiveLoop_eq n B _ ht

theorem receive_accounting_witness :
    (ServerStreamCallback init twoGiBEvent).TotalBytesReceived = 2 ^ 31 ∧
    ((∀ (BufferCount : Nat) (Buffers : Nat → QUIC_BUFFER) (TotalBufferLength : Nat),
      (ServerStreamCallback init
          (.RECEIVE BufferCount Buffers TotalBufferLength)).TotalBytesReceived
        = (init.TotalBytesReceived + ∑ i ∈ Finset.range BufferCount, (Buffers i).Length) % U64) ∧
    (ServerStreamCallback init .PEER_SEND_SHUTDOWN).TotalBytesReceived
      = init.TotalBytesReceived ∧
    (ServerStreamCallback init .SHUTDOWN_COMPLETE).TotalBytesReceived
      = init.TotalBytesReceived ∧
    (ServerStreamCallback init .OTHER).TotalBytesReceived = init.TotalBytesReceived) :=
  ⟨by decide, receive_accounting init (by decide)⟩

theorem sub64_add (t L : Nat) (h : t + L < U64) : sub64 (t + L) L = t := by
  unfold sub64 U64 at *
  omega

theorem div_GB_step (t L : Nat) (h : L ≤ GB) :
    (t + L) / GB = t / GB ∨ (t + L) / GB = t / GB + 1 := by
  have hGB : GB = 1073741824 := by decide
  rw [hGB] at h ⊢
  omega

theorem callback_receive (s : State) (n : Nat) (B : Nat → QUIC_BUFFER) (L : Nat)
    (hsum : descriptorSum (.RECEIVE n B L) = some L) (h : s.TotalBytesReceived + L < U64) :
    (ServerStreamCallback s (.RECEIVE n B L)).TotalBytesReceived = s.TotalBytesReceived + L ∧
    (ServerStreamCallback s (.RECEIVE n B L)).stdout
      = if (s.TotalBytesReceived + L) / GB > s.TotalBytesReceived / GB then
          s.stdout ++ [.ReceivedGB ((s.TotalBytesReceived + L) / GB)]
        else s.stdout := by
  simp only [descriptorSum, Option.some.injEq] at hsum
  have ht : s.TotalBytesReceived < U64 := by omega
  have hloop : receiveLoop n B s.TotalBytesReceived = s.TotalBytesReceived + L := by
    rw [receiveLoop_eq n B _ ht, hsum, Nat.mod_eq_of_lt h]
  simp only [ServerStreamCallback, hloop, sub64_add _ _ h]
  split_ifs <;> simp

theorem milestoneInv_receive (s : State) (n : Nat) (B : Nat → QUIC_BUFFER) (L : Nat)
    (hsum : descriptorSum (.RECEIVE n B L) = some L) (h : s.TotalBytesReceived + L < U64)
    (hsmall : L ≤ GB) (hinv : milestoneInv s) :
    milestoneInv (ServerStreamCallback s (.RECEIVE n B L)) := by
  obtain ⟨ht, hout⟩ := callback_receive s n B L hsum h
  intro k
  rw [ht, hout]
  have hk := hinv k
  have hq := div_GB_step s.TotalBytesReceived L hsmall
  rcases hq with hq | hq
  · rw [hq, if_neg (lt_irrefl _)]
    exact hk
  · rw [hq, if_pos (Nat.lt_succ_self _), List.count_append, hk, List.count_singleton]
    by_cases hkq : k = s.TotalBytesReceived / GB + 1
    · subst hkq
      simp
    · have hne : (Output.ReceivedGB (s.TotalBytesReceived / GB + 1) == Output.ReceivedGB k)
          = false := by
        simp only [beq_eq_false_iff_ne, ne_eq, Output.ReceivedGB.injEq]
        omega
      simp only [hne, Bool.false_eq_true, if_false, Nat.add_zero]
      by_cases hr : 1 ≤ k ∧ k ≤ s.TotalBytesReceived / GB
      · rw [if_pos hr, if_pos ⟨hr.1, by omega⟩]
      · rw [if_neg hr, if_neg (by omega)]

theorem handleAll_milestones (events : List QUIC_STREAM_EVENT) :
    ∀ s : State,
      (∀ e ∈ events, descriptorSum e = some (eventBytes e)) →
      (∀ e ∈ events, eventBytes e ≤ GB) →
      s.TotalBytesReceived + (events.map eventBytes).sum < U64 →
      milestoneInv s → milestoneInv (handleAll s events) := by
  induction events with
  | nil => intro s _ _ _ h; simpa [handleAll] using h
  | cons e rest ih =>
    intro s hrecv hsmall hwrap hinv
    simp only [List.map_cons, List.sum_cons] at hwrap
    have he := hrecv e (List.mem_cons_self _ _)
    have hes := hsmall e (List.mem_cons_self _ _)
    simp only [handleAll, List.foldl_cons]
    cases e with
    | RECEIVE n B L =>
      simp only [eventBytes] at he hes hwrap
      have hstep := callback_receive s n B L he (by omega)
      apply ih
      · exact fun e1 h1 => hrecv e1 (List.mem_cons_of_mem _ h1)
      · exact fun e1 h1 => hsmall e1 (List.mem_cons_of_mem _ h1)
      · rw [hstep.1]; omega
      · exact milestoneInv_receive s n B L he (by omega) hes hinv
    | PEER_SEND_SHUTDOWN => simp [descriptorSum] at he
    | SHUTDOWN_COMPLETE => simp [descriptorSum] at he
    | OTHER => simp [descriptorSum] at he

/-- C5, as amended: for a sequence of `RECEIVE` events handled from
`TotalBytesReceived = 0`, each with `TotalBufferLength` equal to the sum of
its descriptor lengths and not above 1 GiB, the total not wrapping, the line
`Received k GB of data` is written exactly once for every `k` with
`1 ≤ k ≤ TotalBytesReceived / 2^30` (final total). -/
theorem gb_milestones_once (s : State) (events : List QUIC_STREAM_EVENT)
    (h0 : s.TotalBytesReceived = 0) (hout : ∀ k, Output.ReceivedGB k ∉ s.stdout)
    (hrecv : ∀ e ∈ events, descriptorSum e = some (eventBytes e))
    (hwrap : (events.map eventBytes).sum < U64)
    (hsmall : ∀ e ∈ events, eventBytes e ≤ GB)
    (k : Nat) (hk1 : 1 ≤ k) (hk2 : k ≤ (handleAll s events).TotalBytesReceived / GB) :
    (handleAll s events).stdout.count (.ReceivedGB k) = 1 := by
  have hinv : milestoneInv s := by
    intro j
    rw [h0, List.count_eq_zero_of_not_mem (hout j), Nat.zero_div, if_neg (by omega)]
  have h := handleAll_milestones events s hrecv hsmall (by rw [h0]; omega) hinv k
  rw [h, if_pos ⟨hk1, hk2⟩]

theorem gb_milestones_once_witness :
    (handleAll init twoEvents).TotalBytesReceived = 2 * GB ∧
    (handleAll init twoEvents).stdout = [.ReceivedGB 1, .ReceivedGB 2] ∧
    (handleAll init twoEvents).stdout.count (.ReceivedGB 2) = 1 :=
  ⟨by decide, by decide,
    gb_milestones_once init twoEvents rfl (by simp [init])
      (by
        intro e he
        simp only [twoEvents, List.mem_cons, List.mem_singleton, List.not_mem_nil, or_false] at he
        rcases he with rfl | rfl <;> simp [descriptorSum, eventBytes, Finset.sum_range_succ])
      (by decide)
      (by
        intro e he
        simp only [twoEvents, List.mem_cons, List.mem_singleton, List.not_mem_nil, or_false] at he
        rcases he with rfl | rfl <;> simp [eventBytes, GB])
      2 (by decide) (by decide)⟩

/-- C5, counterexample: one `RECEIVE` event with a single descriptor of 2 GiB,
whose `TotalBufferLength` is the descriptor length, takes the total from 0 to
2 GiB; the only line written is `Received 2 GB of data`, and the line for
`k = 1` is never written although `1 ≤ 1 ≤ total / 2^30`. -/
theorem gb_milestone_skipped :
    descriptorSum twoGiBEvent = some (eventBytes twoGiBEvent) ∧
    ([twoGiBEvent].map eventBytes).sum < U64 ∧
    (handleAll init [twoGiBEvent]).TotalBytesReceived / GB = 2 ∧
    (handleAll init [twoGiBEvent]).stdout = [.ReceivedGB 2] ∧
    (handleAll init [twoGiBEvent]).stdout.count (.ReceivedGB 1) = 0 := by
  refine ⟨by simp [descriptorSum, eventBytes, twoGiBEvent], by decide, by decide, by decide,
    by decide⟩

end Server
namespace Client

theorem wrapInt32_of_range (x : Int) (h1 : -2 ^ 31 ≤ x) (h2 : x < 2 ^ 31) : wrapInt32 x = x := by
  unfold wrapInt32
  omega

theorem run_invariant (QUIC_FAILED : QUIC_STATUS → Bool) (P : State → Prop)
    (hstep : ∀ s a s1, P s → step QUIC_FAILED s a = some s1 → P s1) :
    ∀ (actions : List Action) (s s1 : State), P s → run QUIC_FAILED s actions = some s1 → P s1 := by
  intro actions
  induction actions with
  | nil =>
    intro s s1 hs h
    simp only [run, Option.some.injEq] at h
    exact h ▸ hs
  | cons a rest ih =>
    intro s s1 hs h
    simp only [run] at h
    cases hst : step QUIC_FAILED s a with
    | none => simp [hst] at h
    | some s2 =>
      rw [hst] at h
      exact ih s2 s1 (hstep s a s2 hs hst) h

theorem inFlightInv_mainStep (QUIC_FAILED : QUIC_STATUS → Bool) (s : State) (ret : Nat)
    (stale : Bool) (h : inFlightInv s) : inFlightInv (mainStep QUIC_FAILED s ret stale) := by
  obtain ⟨h1, h2, h3⟩ := h
  unfold mainStep
  split <;> rename_i hpc <;> simp only [hpc, inFlightInv] at * <;>
    (try split) <;> simp_all <;>
    first
    | omega
    | (apply wrapInt32_of_range <;> simp only [MAX_PENDING_SENDS] at h1 <;> omega)


theorem inFlightInv_step (QUIC_FAILED : QUIC_STATUS → Bool) (s : State) (a : Action) (s1 : State)
    (h : inFlightInv s) (hs : step QUIC_FAILED s a = some s1) : inFlightInv s1 := by
  unfold step at hs
  split at hs
  · simp at hs
  · cases a with
    | main ret stale =>
      simp only [Option.some.injEq] at hs
      exact hs ▸ inFlightInv_mainStep QUIC_FAILED s ret stale h
    | SIGINT =>
      simp only [Option.some.injEq] at hs
      subst hs
      exact h
    | SIGALRM now =>
      simp only at hs
      split at hs
      · simp only [Option.some.injEq] at hs
        subst hs
        exact h
      · simp at hs
    | stream e =>
      simp only at hs
      split at hs
      · rename_i hen
        simp only [Option.some.injEq] at hs
        subst hs
        obtain ⟨h1, h2, h3⟩ := h
        rcases e with _ | _ | _ | b | _
        · simp only [streamEnabled, Bool.and_eq_true, decide_eq_true_eq] at hen
          have hpos : (1 : Int) ≤ (s.inFlight : Int) := by omega
          have hcast : ((s.inFlight - 1 : Nat) : Int) = (s.inFlight : Int) - 1 := by omega
          simp only [MAX_PENDING_SENDS] at h1 h2
          refine ⟨?_, ?_, ?_⟩
          · simp only [ClientStreamCallback, MAX_PENDING_SENDS]
            omega
          · intro hpc
            have := h2 hpc
            simp only [ClientStreamCallback, MAX_PENDING_SENDS]
            omega
          · simp only [ClientStreamCallback, hcast, h3]
            split_ifs <;> (rw [wrapInt32_of_range] <;> omega)
        · exact ⟨h1, h2, h3⟩
        · exact ⟨h1, h2, h3⟩
        · cases b <;> exact ⟨h1, h2, h3⟩
        · exact ⟨h1, h2, h3⟩
      · simp at hs
    | connection e r1 =>
      simp only at hs
      split at hs
      · obtain ⟨h1, h2, h3⟩ := h
        rcases e with _ | b | _
        · simp only [Option.some.injEq] at hs
          subst hs
          simp only [connectedOpen]
          split_ifs <;> exact ⟨h1, h2, h3⟩
        · simp only [Option.some.injEq] at hs
          subst hs
          cases b <;> exact ⟨h1, h2, h3⟩
        · simp only [Option.some.injEq] at hs
          subst hs
          exact ⟨h1, h2, h3⟩
      · simp at hs
    | worker ret now =>
      simp only at hs
      obtain ⟨h1, h2, h3⟩ := h
      split at hs
      · simp at hs
      · simp only [Option.some.injEq] at hs
        subst hs
        simp only [connectedStart]
        split_ifs <;> exact ⟨h1, h2, h3⟩
      · simp only [Option.some.injEq] at hs
        subst hs
        exact ⟨h1, h2, h3⟩

theorem inFlightInv_init (b d : Nat) : inFlightInv (init b d) := by
  simp [inFlightInv, init, MAX_PENDING_SENDS]

theorem inFlightInv_run (QUIC_FAILED : QUIC_STATUS → Bool) (BufferSize TestDuration : Nat)
    (actions : List Action) (s : State)
    (hrun : run QUIC_FAILED (init BufferSize TestDuration) actions = some s) : inFlightInv s :=
  run_invariant QUIC_FAILED inFlightInv (inFlightInv_step QUIC_FAILED) actions _ _
    (inFlightInv_init BufferSize TestDuration) hrun

/-- C1: in every state that the sender process can reach from `PendingSends = 0`
by statements of the main thread, signals, and callbacks (a send completion
being delivered only for a send that was accepted and has not completed),
`0 ≤ PendingSends ≤ MAX_PENDING_SENDS` holds whenever the main thread is
anywhere but between a successful `StreamSend` and the increment of line 146,
so in particular at the head of the producer loop and at the test of line 278;
at that one point the counter is at least `-1`, so it never wraps. -/
theorem pending_sends_bounded (QUIC_FAILED : QUIC_STATUS → Bool) (BufferSize TestDuration : Nat)
    (actions : List Action) (s : State)
    (hrun : run QUIC_FAILED (init BufferSize TestDuration) actions = some s) :
    (s.pc ≠ .sdAdd → 0 ≤ s.PendingSends ∧ s.PendingSends ≤ MAX_PENDING_SENDS) ∧
    (-1 ≤ s.PendingSends ∧ s.PendingSends ≤ MAX_PENDING_SENDS) := by
  obtain ⟨h1, _, h3⟩ := inFlightInv_run QUIC_FAILED BufferSize TestDuration actions s hrun
  refine ⟨?_, ?_⟩
  · intro hpc
    rw [if_neg hpc] at h3
    omega
  · split_ifs at h3 <;> omega

theorem pending_sends_bounded_witness :
    run posixFailed (init 1200 10) (startup ++ iterationOk) = some afterOneSend ∧
    afterOneSend.pc = .loopRunning ∧ afterOneSend.PendingSends = 1 ∧
    ((afterOneSend.pc ≠ .sdAdd →
      0 ≤ afterOneSend.PendingSends ∧ afterOneSend.PendingSends ≤ MAX_PENDING_SENDS) ∧
    (-1 ≤ afterOneSend.PendingSends ∧ afterOneSend.PendingSends ≤ MAX_PENDING_SENDS)) :=
  ⟨rfl, rfl, rfl,
    pending_sends_bounded posixFailed 1200 10 (startup ++ iterationOk) afterOneSend rfl⟩

/-- With a stale read of `Stream` by the test of line 287, a run that ends on
the deadline reaches the report without `StreamShutdown`, although the
callback has stored the stream handle: the test sees `NULL`. -/
theorem stale_stream_read_skips_shutdown :
    (run posixFailed (init 1200 10) staleDeadlineRun).map
      (fun s => (s.pc, s.Stream, s.TestTimeExpired, s.mainLog,
        decide (Api.StreamShutdownGraceful ∈ s.apiLog)))
      = some (.report, true, 1,
          [.readRunning 1, .readExpired 1, .testStream false], false) := by
  decide

/-- The four statements of `SendData` in the step semantics, run without
interruption from its entry, compute what `SendData` computes and return to
the head of the loop. -/
theorem mainStep_SendData (QUIC_FAILED : QUIC_STATUS → Bool) (s : State)
    (SendBufferRaw : Nat) (Status : QUIC_STATUS) (r3 r4 : Nat) (b1 b2 b3 b4 : Bool)
    (hpc : s.pc = .sdMalloc) :
    (SendBufferRaw = 0 →
      mainStep QUIC_FAILED s SendBufferRaw b1
        = { SendData QUIC_FAILED s SendBufferRaw Status with pc := .loopRunning }) ∧
    (SendBufferRaw ≠ 0 → QUIC_FAILED Status = true →
      mainStep QUIC_FAILED (mainStep QUIC_FAILED s SendBufferRaw b1) Status b2
        = { SendData QUIC_FAILED s SendBufferRaw Status with pc := .loopRunning }) ∧
    (SendBufferRaw ≠ 0 → QUIC_FAILED Status = false →
      mainStep QUIC_FAILED (mainStep QUIC_FAILED
          (mainStep QUIC_FAILED (mainStep QUIC_FAILED s SendBufferRaw b1) Status b2) r3 b3) r4 b4
        = { SendData QUIC_FAILED s SendBufferRaw Status with pc := .loopRunning }) := by
  refine ⟨?_, ?_, ?_⟩
  · intro h0
    simp [mainStep, SendData, hpc, h0]
  · intro h0 hf
    simp [mainStep, SendData, hpc, h0, hf]
  · intro h0 hf
    simp [mainStep, SendData, hpc, h0, hf]

/-- The three statements of the connected branch in the step semantics, run
without interruption, compute what `ClientConnectionCallback` computes for
the connected event. -/
theorem connected_steps (QUIC_FAILED : QUIC_STATUS → Bool) (s : State)
    (StreamOpenRet StreamStartRet : QUIC_STATUS) (now : Int) (hcb : s.cb = .idle) :
    (QUIC_FAILED StreamOpenRet = true →
      connectedOpen QUIC_FAILED s StreamOpenRet
        = (ClientConnectionCallback QUIC_FAILED s .CONNECTED
            StreamOpenRet StreamStartRet now).1) ∧
    (QUIC_FAILED StreamOpenRet = false → QUIC_FAILED StreamStartRet = true →
      connectedStart QUIC_FAILED (connectedOpen QUIC_FAILED s StreamOpenRet) StreamStartRet
        = (ClientConnectionCallback QUIC_FAILED s .CONNECTED
            StreamOpenRet StreamStartRet now).1) ∧
    (QUIC_FAILED StreamOpenRet = false → QUIC_FAILED StreamStartRet = false →
      connectedTimer
          (connectedStart QUIC_FAILED (connectedOpen QUIC_FAILED s StreamOpenRet)
            StreamStartRet) now
        = (ClientConnectionCallback QUIC_FAILED s .CONNECTED
            StreamOpenRet StreamStartRet now).1) := by
  refine ⟨?_, ?_, ?_⟩
  · intro h1
    simp [connectedOpen, ClientConnectionCallback, h1]
  · intro h1 h2
    simp [connectedOpen, connectedStart, ClientConnectionCallback, h1, h2, hcb]
  · intro h1 h2
    simp [connectedOpen, connectedStart, connectedTimer, ClientConnectionCallback, h1, h2, hcb]

theorem SendData_BufferSize (QUIC_FAILED : QUIC_STATUS → Bool) (s : State) (c : Nat × QUIC_STATUS) :
    (SendData QUIC_FAILED s c.1 c.2).BufferSize = s.BufferSize := by
  unfold SendData
  split_ifs <;> rfl

theorem SendData_TotalBytesSent (QUIC_FAILED : QUIC_STATUS → Bool) (s : State)
    (c : Nat × QUIC_STATUS) :
    (SendData QUIC_FAILED s c.1 c.2).TotalBytesSent
      = if sendSucceeded QUIC_FAILED c = true then (s.TotalBytesSent + s.BufferSize) % U64
        else s.TotalBytesSent := by
  unfold SendData sendSucceeded
  split_ifs <;> simp_all

theorem sendAll_TotalBytesSent (QUIC_FAILED : QUIC_STATUS → Bool)
    (calls : List (Nat × QUIC_STATUS)) :
    ∀ s : State, (sendAll QUIC_FAILED s calls).BufferSize = s.BufferSize ∧
      (sendAll QUIC_FAILED s calls).TotalBytesSent % U64
        = (s.TotalBytesSent + (calls.filter (sendSucceeded QUIC_FAILED)).length * s.BufferSize)
            % U64 := by
  induction calls with
  | nil => intro s; simp [sendAll]
  | cons c rest ih =>
    intro s
    have hrec := ih (SendData QUIC_FAILED s c.1 c.2)
    simp only [sendAll, List.foldl_cons] at hrec ⊢
    rw [SendData_BufferSize, SendData_TotalBytesSent] at hrec
    refine ⟨hrec.1, ?_⟩
    rw [hrec.2]
    by_cases hc : sendSucceeded QUIC_FAILED c = true
    · simp only [hc, if_true, List.filter_cons_of_pos, List.length_cons]
      rw [Nat.mod_add_mod]
      congr 1
      ring
    · simp only [hc, if_false, List.filter_cons_of_neg, Bool.false_eq_true, not_false_eq_true]

theorem sendAll_lt (QUIC_FAILED : QUIC_STATUS → Bool) (calls : List (Nat × QUIC_STATUS)) :
    ∀ s : State, s.TotalBytesSent < U64 → (sendAll QUIC_FAILED s calls).TotalBytesSent < U64 := by
  induction calls with
  | nil => intro s h; simpa [sendAll] using h
  | cons c rest ih =>
    intro s h
    simp only [sendAll, List.foldl_cons]
    apply ih
    rw [SendData_TotalBytesSent]
    split_ifs
    · exact Nat.mod_lt _ (by decide)
    · exact h

/-- C3: after any sequence of `SendData` calls with a fixed `BufferSize`,
started with `TotalBytesSent = 0`, `TotalBytesSent` is the number of calls in
which `StreamSend` succeeded times `BufferSize`, modulo `2^64`; a call in which
the allocation or `StreamSend` fails leaves `TotalBytesSent` (and
`PendingSends`) unchanged. -/
theorem bytes_sent_accounting (QUIC_FAILED : QUIC_STATUS → Bool) (s : State)
    (calls : List (Nat × QUIC_STATUS)) (h0 : s.TotalBytesSent = 0) :
    (sendAll QUIC_FAILED s calls).TotalBytesSent
      = ((calls.filter (sendSucceeded QUIC_FAILED)).length * s.BufferSize) % U64 ∧
    (∀ (st : State) (c : Nat × QUIC_STATUS), sendSucceeded QUIC_FAILED c = false →
      (SendData QUIC_FAILED st c.1 c.2).TotalBytesSent = st.TotalBytesSent ∧
      (SendData QUIC_FAILED st c.1 c.2).PendingSends = st.PendingSends) := by
  refine ⟨?_, ?_⟩
  · have h := (sendAll_TotalBytesSent QUIC_FAILED calls s).2
    have hlt := sendAll_lt QUIC_FAILED calls s (by rw [h0]; decide)
    rw [Nat.mod_eq_of_lt hlt, h0, Nat.zero_add] at h
    exact h
  · intro st c hc
    refine ⟨by rw [SendData_TotalBytesSent, hc]; simp, ?_⟩
    unfold SendData
    unfold sendSucceeded at hc
    split_ifs <;> simp_all

theorem bytes_sent_accounting_witness :
    (sendAll posixFailed (init 1200 10) [(1, 0), (0, 0), (1, 1), (1, 0)]).TotalBytesSent = 2400 ∧
    ((sendAll posixFailed (init 1200 10) [(1, 0), (0, 0), (1, 1), (1, 0)]).TotalBytesSent
      = (([(1, 0), (0, 0), (1, 1), (1, 0)].filter (sendSucceeded posixFailed)).length
          * (init 1200 10).BufferSize) % U64 ∧
    (∀ (st : State) (c : Nat × QUIC_STATUS), sendSucceeded posixFailed c = false →
      (SendData posixFailed st c.1 c.2).TotalBytesSent = st.TotalBytesSent ∧
      (SendData posixFailed st c.1 c.2).PendingSends = st.PendingSends)) :=
  ⟨by decide, bytes_sent_accounting posixFailed (init 1200 10) [(1, 0), (0, 0), (1, 1), (1, 0)] rfl⟩

/-- C7: in `sendFailRun` the call of `StreamSend` fails in three iterations
of the loop in a row.  After the first failure `SendData` has printed the
status and returned, `Running` is still 1 and the main thread is back at the
loop condition; the loop calls `SendData` and `StreamSend` again each time, and
when `StreamSend` succeeds in the fourth iteration its bytes are counted. -/
theorem send_failure_does_not_stop_loop :
    (run posixFailed (init 1200 10) (startup ++ iterationSendFails)).map
      (fun s => (s.pc, s.Running, s.stdout.getLast?, s.TotalBytesSent))
      = some (.loopRunning, 1, some (.Failed "StreamSend" 1), 0) ∧
    (run posixFailed (init 1200 10) sendFailRun).map
      (fun s => (s.Running, s.mainLog, s.apiLog.count .StreamSend,
        s.stdout.count (.Failed "StreamSend" 1), s.TotalBytesSent))
      = some (1, [.readRunning 1, .readExpired 0, .SendData,
                  .readRunning 1, .readExpired 0, .SendData,
                  .readRunning 1, .readExpired 0, .SendData,
                  .readRunning 1, .readExpired 0, .SendData], 4, 3, 1200) := by
  decide

/-- C10: in `peerCloseRun` the callback closes the connection when the
shutdown-complete event arrives with `AppCloseInProgress` false, and the
`Cleanup` path of `main` calls `ConnectionClose` on the handle once more: the
call is made twice. -/
theorem connection_closed_twice :
    (run posixFailed (init 1200 10) peerCloseRun).map
      (fun s => (s.pc, s.apiLog.count .ConnectionClose, s.apiLog.drop 9))
      = some (.exited 0, 2,
          [.StreamClose, .ConnectionClose, .ConnectionClose, .ConfigurationClose,
           .RegistrationClose, .MsQuicClose]) := by
  decide

/-- C8: in `interruptRun` followed by the report and the cleanup, `EndTime` is
never written: the report is computed from the initial value 0 of `EndTime`
and the captured `StartTime`, which gives a negative elapsed time. -/
theorem interrupt_leaves_end_time_unwritten :
    (run posixFailed (init 1200 10) (interruptRun ++ reportAndCleanup)).map
      (fun s => (s.pc, s.startWrites, s.endWrites, s.StartTime, s.EndTime, s.stdout.getLast?))
      = some (.exited 0, 1, 0, 5000000000, 0, some (.Report 1200 (-5000000000))) := by
  rfl


/-- C6: when `RegistrationOpen` (or `ConnectionStart`) fails, the sender's
`main` jumps to `Cleanup`, closes the handles it holds, and returns 0, and so
does the receiver's `main`; only a failure of `MsQuicOpen2` makes `main`
return 1. -/
theorem init_failure_returns_zero :
    (run posixFailed (init 1200 10) [.main 1 false]).map (fun s => s.pc) = some (.exited 1) ∧
    (run posixFailed (init 1200 10) regOpenFailsRun).map (fun s => (s.pc, s.apiLog))
      = some (.exited 0, [.MsQuicOpen2, .RegistrationOpen, .MsQuicClose]) ∧
    (run posixFailed (init 1200 10) connStartFailsRun).map (fun s => (s.pc, s.apiLog.drop 5))
      = some (.exited 0, [.ConnectionStart, .ConnectionClose, .ConfigurationClose,
          .RegistrationClose, .MsQuicClose]) ∧
    (Server.runMain posixFailed Server.init [1]).pc = .exited 1 ∧
    (Server.runMain posixFailed Server.init Server.regOpenFailsRets).pc = .exited 0 ∧
    (Server.runMain posixFailed Server.init Server.regOpenFailsRets).apiLog
      = [.MsQuicOpen2, .RegistrationOpen, .MsQuicClose] := by
  decide


end Client
